import Mathlib

/-
Verification development for the OpenFiles TypeScript SDK
(path algebra, tool catalog, tool executor, conversation orchestration).

Each definition below is a shallow embedding of a function from the SDK
sources:
  - `normalizePath`, `joinPaths`, `resolvePath`, `isValidPath`
    from src/utils/path.ts
  - `OpenFilesClient` (constructor validation, withBasePath, the eight
    file operations) from src/core/client.ts
  - `OpenFilesTools` / `OpenAIProvider` / `AnthropicProvider`
    (definitions, stripBasePath, executeTool, processToolCalls)
    from src/tools/tools.ts
  - the enhanced OpenAI `create` orchestration from src/openai/client.ts

JavaScript strings are Lean `String`s; optional / possibly-undefined
values are `Option`s; thrown exceptions and rejected promises are
`Except.error`; the remote HTTP backend is an abstract record of
functions (`BackendM`), since it is an external collaborator.
-/

namespace OpenFiles

/- ## Path algebra (src/utils/path.ts) -/

/-- One character of the slash class used by the normalization regexes. -/
def isSlash (c : Char) : Bool := c = '/'

/-- Embedding of the regex replacement `replace(/\/+/g, '/')`: collapse
every run of consecutive slashes to a single slash. -/
def collapseSlashes : List Char → List Char
  | [] => []
  | [c] => [c]
  | c1 :: c2 :: rest =>
    if c1 = '/' ∧ c2 = '/' then collapseSlashes (c2 :: rest)
    else c1 :: collapseSlashes (c2 :: rest)

/-- Embedding of `replace(/\/+$/, '')`: drop every trailing slash. -/
def dropTrailingSlashes (l : List Char) : List Char :=
  (l.reverse.dropWhile isSlash).reverse

/-- The three regex replacements of `normalizePath`, on character lists:
drop leading slashes, collapse duplicate slashes, drop trailing slashes. -/
def normalizeList (l : List Char) : List Char :=
  dropTrailingSlashes (collapseSlashes (l.dropWhile isSlash))

/-- `normalizePath` from src/utils/path.ts.  The `if (!path) return ''`
guard of the source is the empty-string case, which the pipeline already
maps to the empty string. -/
def normalizePath (p : String) : String :=
  ⟨normalizeList p.data⟩

/-- `joinPaths` from src/utils/path.ts, mirroring its cascade of
empty-string guards. -/
def joinPaths (basePath relativePath : String) : String :=
  if basePath = "" ∧ relativePath = "" then ""
  else if basePath = "" then normalizePath relativePath
  else if relativePath = "" then normalizePath basePath
  else
    let normalizedBase := normalizePath basePath
    let normalizedRelative := normalizePath relativePath
    if normalizedBase = "" then normalizedRelative
    else if normalizedRelative = "" then normalizedBase
    else normalizedBase ++ "/" ++ normalizedRelative

/-- JavaScript `a || b` on an optional string: `undefined` and the empty
string are both falsy. -/
def orElseStr (a : Option String) (b : String) : String :=
  match a with
  | none => b
  | some s => if s = "" then b else s

/-- `resolvePath` from src/utils/path.ts: the effective base is
`operationBasePath || scopedBasePath || constructorBasePath || ''` and an
absent or empty relative path returns the normalized base. -/
def resolvePath (constructorBasePath scopedBasePath operationBasePath
    relativePath : Option String) : String :=
  let effectiveBasePath :=
    orElseStr operationBasePath
      (orElseStr scopedBasePath (orElseStr constructorBasePath ""))
  match relativePath with
  | none => normalizePath effectiveBasePath
  | some r => if r = "" then normalizePath effectiveBasePath
              else joinPaths effectiveBasePath r

/-- Containment of the two-character sequence `..` (JS `includes('..')`). -/
def hasDotDot : List Char → Bool
  | '.' :: '.' :: _ => true
  | _ :: rest => hasDotDot rest
  | [] => false

/-- One character of the class `[<>:"|?*\x00-\x1f]` of `isValidPath`. -/
def isInvalidPathChar (c : Char) : Bool :=
  c = '<' ∨ c = '>' ∨ c = ':' ∨ c = '"' ∨ c = '|' ∨ c = '?' ∨ c = '*' ∨
    c.toNat ≤ 0x1f

/-- `isValidPath` from src/utils/path.ts: rejects empty or
whitespace-only paths (JS `!path || path.trim().length === 0`), any path
containing `..`, and any path containing a character of the invalid
class. -/
def isValidPath (path : String) : Bool :=
  if path = "" ∨ path.data.all Char.isWhitespace then false
  else if hasDotDot path.data then false
  else if path.data.any isInvalidPathChar then false
  else true

/-- JS `s.startsWith(pre)`, embedded on character lists. -/
def strStartsWith (s pre : String) : Bool :=
  pre.data.isPrefixOf s.data

/- ## JSON values for the tool schemas (src/tools/tools.ts) -/

/-- Plain JSON values, used to transcribe the schema object literals of the
tool catalog verbatim. -/
inductive JsonVal where
  | null
  | str (s : String)
  | num (n : Int)
  | boolean (b : Bool)
  | arr (xs : List JsonVal)
  | obj (fields : List (String × JsonVal))

/-- Field lookup in a JSON object (`undefined` for a missing key or a
non-object). -/
def JsonVal.getField : JsonVal → String → JsonVal
  | .obj fields, key =>
    match fields.find? (fun kv => kv.1 = key) with
    | some kv => kv.2
    | none => .null
  | _, _ => .null

/-- The keys of a JSON object (empty for a non-object). -/
def JsonVal.objKeys : JsonVal → List String
  | .obj fields => fields.map (fun kv => kv.1)
  | _ => []

/-- The `OpenAIProvider.definitions` getter of src/tools/tools.ts,
transcribed as JSON values. -/
def openaiDefinitions : List JsonVal :=
  [ .obj [("type", .str "function"),
      ("function", .obj [
        ("name", .str "write_file"),
        ("description", .str "CREATE a NEW file (fails if file exists). Use when user wants to: create, generate, make, or write a new file. For existing files, use edit_file, append_to_file, or overwrite_file instead."),
        ("strict", .boolean true),
        ("parameters", .obj [
          ("type", .str "object"),
          ("properties", .obj [
            ("path", .obj [("type", .str "string"),
              ("description", .str "File path (S3-style, no leading slash)"),
              ("example", .str "document.md")]),
            ("content", .obj [("type", .str "string"),
              ("description", .str "File content to write")]),
            ("contentType", .obj [("type", .str "string"),
              ("description", .str "MIME type of file content. Provide specific type (e.g., text/plain, text/markdown, application/json) or use application/octet-stream as default"),
              ("default", .str "application/octet-stream"),
              ("example", .str "text/markdown")])]),
          ("required", .arr [.str "path", .str "content", .str "contentType"]),
          ("additionalProperties", .boolean false)])])],
    .obj [("type", .str "function"),
      ("function", .obj [
        ("name", .str "read_file"),
        ("description", .str "READ and DISPLAY existing file content. Use when user asks to: see, show, read, view, display, or retrieve file content. Returns the actual content to show the user."),
        ("strict", .boolean true),
        ("parameters", .obj [
          ("type", .str "object"),
          ("properties", .obj [
            ("path", .obj [("type", .str "string"),
              ("description", .str "File path (S3-style, no leading slash)"),
              ("example", .str "document.md")]),
            ("version", .obj [("type", .str "number"),
              ("description", .str "Specific version to read (use 0 or omit for latest version)"),
              ("default", .num 0)])]),
          ("required", .arr [.str "path", .str "version"]),
          ("additionalProperties", .boolean false)])])],
    .obj [("type", .str "function"),
      ("function", .obj [
        ("name", .str "edit_file"),
        ("description", .str "MODIFY parts of an existing file by replacing specific text. Use when user wants to: update, change, fix, or edit specific portions while keeping the rest."),
        ("strict", .boolean true),
        ("parameters", .obj [
          ("type", .str "object"),
          ("properties", .obj [
            ("path", .obj [("type", .str "string"),
              ("description", .str "File path (S3-style, no leading slash)"),
              ("example", .str "document.md")]),
            ("oldString", .obj [("type", .str "string"),
              ("description", .str "Exact string to find and replace")]),
            ("newString", .obj [("type", .str "string"),
              ("description", .str "Replacement string")])]),
          ("required", .arr [.str "path", .str "oldString", .str "newString"]),
          ("additionalProperties", .boolean false)])])],
    .obj [("type", .str "function"),
      ("function", .obj [
        ("name", .str "list_files"),
        ("description", .str "LIST files. Use when user wants to: browse files, see what exists, explore contents, or find available files. IMPORTANT: Always use recursive=true unless user explicitly asks for a specific directory only."),
        ("strict", .boolean true),
        ("parameters", .obj [
          ("type", .str "object"),
          ("properties", .obj [
            ("directory", .obj [("type", .str "string"),
              ("description", .str "Directory path to list files from"),
              ("example", .str "folder/"),
              ("default", .str "/")]),
            ("recursive", .obj [("type", .str "boolean"),
              ("description", .str "IMPORTANT: Use true to search all directories (recommended for \"list all files\"), false only for specific directory browsing"),
              ("default", .boolean true)]),
            ("limit", .obj [("type", .str "number"),
              ("description", .str "Maximum number of files to return"),
              ("default", .num 10),
              ("minimum", .num 1),
              ("maximum", .num 100)])]),
          ("required", .arr [.str "directory", .str "recursive", .str "limit"]),
          ("additionalProperties", .boolean false)])])],
    .obj [("type", .str "function"),
      ("function", .obj [
        ("name", .str "append_to_file"),
        ("description", .str "ADD content to the END of existing file. Use for: adding to logs, extending lists, continuing documents, or accumulating data without losing existing content."),
        ("strict", .boolean true),
        ("parameters", .obj [
          ("type", .str "object"),
          ("properties", .obj [
            ("path", .obj [("type", .str "string"),
              ("description", .str "File path (S3-style, no leading slash)"),
              ("example", .str "logs/daily-operations.log")]),
            ("content", .obj [("type", .str "string"),
              ("description", .str "Content to append to the file")])]),
          ("required", .arr [.str "path", .str "content"]),
          ("additionalProperties", .boolean false)])])],
    .obj [("type", .str "function"),
      ("function", .obj [
        ("name", .str "overwrite_file"),
        ("description", .str "REPLACE ALL content in existing file. Use when user wants to: completely rewrite, reset, or replace entire file content. Keeps the file but changes everything inside."),
        ("strict", .boolean true),
        ("parameters", .obj [
          ("type", .str "object"),
          ("properties", .obj [
            ("path", .obj [("type", .str "string"),
              ("description", .str "File path (S3-style, no leading slash)"),
              ("example", .str "policies/employee-handbook.md")]),
            ("content", .obj [("type", .str "string"),
              ("description", .str "New content to replace existing content")]),
            ("isBase64", .obj [("type", .str "boolean"),
              ("description", .str "Whether the content is base64 encoded"),
              ("default", .boolean false)])]),
          ("required", .arr [.str "path", .str "content", .str "isBase64"]),
          ("additionalProperties", .boolean false)])])],
    .obj [("type", .str "function"),
      ("function", .obj [
        ("name", .str "get_file_metadata"),
        ("description", .str "GET file information (size, version, dates) WITHOUT content. Use for: checking file stats, properties, or metadata when content is not needed."),
        ("strict", .boolean true),
        ("parameters", .obj [
          ("type", .str "object"),
          ("properties", .obj [
            ("path", .obj [("type", .str "string"),
              ("description", .str "File path (S3-style, no leading slash)"),
              ("example", .str "document.md")]),
            ("version", .obj [("type", .str "number"),
              ("description", .str "Specific version to get metadata for (use 0 for latest version)"),
              ("default", .num 0)])]),
          ("required", .arr [.str "path", .str "version"]),
          ("additionalProperties", .boolean false)])])],
    .obj [("type", .str "function"),
      ("function", .obj [
        ("name", .str "get_file_versions"),
        ("description", .str "GET version history of a file. Use when user wants to: see file history, list all versions, or access previous versions."),
        ("strict", .boolean true),
        ("parameters", .obj [
          ("type", .str "object"),
          ("properties", .obj [
            ("path", .obj [("type", .str "string"),
              ("description", .str "File path (S3-style, no leading slash)"),
              ("example", .str "document.md")]),
            ("limit", .obj [("type", .str "number"),
              ("description", .str "Maximum number of versions to return"),
              ("default", .num 10),
              ("minimum", .num 1),
              ("maximum", .num 100)]),
            ("offset", .obj [("type", .str "number"),
              ("description", .str "Number of versions to skip for pagination"),
              ("default", .num 0),
              ("minimum", .num 0)])]),
          ("required", .arr [.str "path", .str "limit", .str "offset"]),
          ("additionalProperties", .boolean false)])])]]

/-- The `AnthropicProvider.definitions` getter of src/tools/tools.ts,
transcribed as JSON values. -/
def anthropicDefinitions : List JsonVal :=
  [ .obj [
      ("name", .str "write_file"),
      ("description", .str "CREATE a NEW file (fails if file exists). Use when user wants to: create, generate, make, or write a new file. For existing files, use edit_file, append_to_file, or overwrite_file instead."),
      ("input_schema", .obj [
        ("type", .str "object"),
        ("properties", .obj [
          ("path", .obj [("type", .str "string"),
            ("description", .str "File path (S3-style, no leading slash)")]),
          ("content", .obj [("type", .str "string"),
            ("description", .str "File content to write")]),
          ("contentType", .obj [("type", .str "string"),
            ("description", .str "MIME type of file content. Provide specific type (e.g., text/plain, text/markdown, application/json) or use application/octet-stream as default"),
            ("default", .str "application/octet-stream")])]),
        ("required", .arr [.str "path", .str "content", .str "contentType"])])],
    .obj [
      ("name", .str "read_file"),
      ("description", .str "READ and DISPLAY existing file content. Use when user asks to: see, show, read, view, display, or retrieve file content. Returns the actual content to show the user."),
      ("input_schema", .obj [
        ("type", .str "object"),
        ("properties", .obj [
          ("path", .obj [("type", .str "string"),
            ("description", .str "File path (S3-style, no leading slash)")]),
          ("version", .obj [("type", .str "number"),
            ("description", .str "Specific version to read (use 0 or omit for latest version)"),
            ("default", .num 0)])]),
        ("required", .arr [.str "path", .str "version"])])],
    .obj [
      ("name", .str "edit_file"),
      ("description", .str "MODIFY parts of an existing file by replacing specific text. Use when user wants to: update, change, fix, or edit specific portions while keeping the rest."),
      ("input_schema", .obj [
        ("type", .str "object"),
        ("properties", .obj [
          ("path", .obj [("type", .str "string"),
            ("description", .str "File path (S3-style, no leading slash)")]),
          ("oldString", .obj [("type", .str "string"),
            ("description", .str "Exact string to find and replace")]),
          ("newString", .obj [("type", .str "string"),
            ("description", .str "Replacement string")])]),
        ("required", .arr [.str "path", .str "oldString", .str "newString"])])],
    .obj [
      ("name", .str "list_files"),
      ("description", .str "LIST files. Use when user wants to: browse files, see what exists, explore contents, or find available files. IMPORTANT: Always use recursive=true unless user explicitly asks for a specific directory only."),
      ("input_schema", .obj [
        ("type", .str "object"),
        ("properties", .obj [
          ("directory", .obj [("type", .str "string"),
            ("description", .str "Directory path to list files from"),
            ("default", .str "/")]),
          ("recursive", .obj [("type", .str "boolean"),
            ("description", .str "IMPORTANT: Use true to search all directories (recommended for \"list all files\"), false only for specific directory browsing"),
            ("default", .boolean true)]),
          ("limit", .obj [("type", .str "number"),
            ("description", .str "Maximum number of files to return"),
            ("default", .num 10),
            ("minimum", .num 1),
            ("maximum", .num 100)])]),
        ("required", .arr [.str "directory", .str "recursive", .str "limit"])])],
    .obj [
      ("name", .str "append_to_file"),
      ("description", .str "ADD content to the END of existing file. Use for: adding to logs, extending lists, continuing documents, or accumulating data without losing existing content."),
      ("input_schema", .obj [
        ("type", .str "object"),
        ("properties", .obj [
          ("path", .obj [("type", .str "string"),
            ("description", .str "File path (S3-style, no leading slash)")]),
          ("content", .obj [("type", .str "string"),
            ("description", .str "Content to append to the file")])]),
        ("required", .arr [.str "path", .str "content"])])],
    .obj [
      ("name", .str "overwrite_file"),
      ("description", .str "REPLACE ALL content in existing file. Use when user wants to: completely rewrite, reset, or replace entire file content. Keeps the file but changes everything inside."),
      ("input_schema", .obj [
        ("type", .str "object"),
        ("properties", .obj [
          ("path", .obj [("type", .str "string"),
            ("description", .str "File path (S3-style, no leading slash)")]),
          ("content", .obj [("type", .str "string"),
            ("description", .str "New content to replace existing content")]),
          ("isBase64", .obj [("type", .str "boolean"),
            ("description", .str "Whether the content is base64 encoded"),
            ("default", .boolean false)])]),
        ("required", .arr [.str "path", .str "content", .str "isBase64"])])],
    .obj [
      ("name", .str "get_file_metadata"),
      ("description", .str "GET file information (size, version, dates) WITHOUT content. Use for: checking file stats, properties, or metadata when content is not needed."),
      ("input_schema", .obj [
        ("type", .str "object"),
        ("properties", .obj [
          ("path", .obj [("type", .str "string"),
            ("description", .str "File path (S3-style, no leading slash)")]),
          ("version", .obj [("type", .str "number"),
            ("description", .str "Specific version to get metadata for (use 0 for latest version)"),
            ("default", .num 0)])]),
        ("required", .arr [.str "path", .str "version"])])],
    .obj [
      ("name", .str "get_file_versions"),
      ("description", .str "GET version history of a file. Use when user wants to: see file history, list all versions, or access previous versions."),
      ("input_schema", .obj [
        ("type", .str "object"),
        ("properties", .obj [
          ("path", .obj [("type", .str "string"),
            ("description", .str "File path (S3-style, no leading slash)")]),
          ("limit", .obj [("type", .str "number"),
            ("description", .str "Maximum number of versions to return"),
            ("default", .num 10),
            ("minimum", .num 1),
            ("maximum", .num 100)]),
          ("offset", .obj [("type", .str "number"),
            ("description", .str "Number of versions to skip for pagination"),
            ("default", .num 0),
            ("minimum", .num 0)])]),
        ("required", .arr [.str "path", .str "limit", .str "offset"])])]]

/-- The `properties` keys of one OpenAI-style tool schema. -/
def openaiSchemaPropKeys (d : JsonVal) : List String :=
  (((d.getField "function").getField "parameters").getField "properties").objKeys

/-- The `properties` keys of one Anthropic-style tool schema. -/
def anthropicSchemaPropKeys (d : JsonVal) : List String :=
  ((d.getField "input_schema").getField "properties").objKeys

/- ## Core client (src/core/client.ts) -/

/-- Backend-owned file metadata; only the fields the SDK layer reads are
modelled. -/
structure FileMetadataM where
  path : String
  version : Nat
  size : Nat
deriving DecidableEq

/-- JavaScript `a || b` on an optional number (`0` is falsy). -/
def orElseNat (a : Option Nat) (b : Nat) : Nat :=
  match a with
  | none => b
  | some n => if n = 0 then b else n

/-- Request body of the generated `_writeFile` call. -/
structure WriteRequestM where
  path : String
  content : Option String
  contentType : Option String
  isBase64 : Option Bool
deriving DecidableEq

/-- Path/query of the generated `_readFile` call. -/
structure ReadRequestM where
  path : String
  version : Option Nat
deriving DecidableEq

/-- Path/body of the generated `_editFile` call. -/
structure EditRequestM where
  path : String
  oldString : Option String
  newString : Option String
deriving DecidableEq

/-- Path/body of the generated `_appendFile` call. -/
structure AppendRequestM where
  path : String
  content : Option String
deriving DecidableEq

/-- Path/body of the generated `_overwriteFile` call. -/
structure OverwriteRequestM where
  path : String
  content : Option String
  isBase64 : Option Bool
deriving DecidableEq

/-- Query of the generated `_listFiles` call. -/
structure ListRequestM where
  directory : String
  limit : Nat
  offset : Nat
  recursive : Option Bool
deriving DecidableEq

/-- Query of the metadata variant of the generated `_readFile` call. -/
structure MetadataRequestM where
  path : String
  version : Option Nat
deriving DecidableEq

/-- Query of the versions variant of the generated `_readFile` call. -/
structure VersionsRequestM where
  path : String
  limit : Nat
  offset : Nat
deriving DecidableEq

/-- The external HTTP file-storage backend, as an abstract collaborator:
one function per generated endpoint, each returning a result or a thrown
error message. -/
structure BackendM where
  writeFile : WriteRequestM → Except String FileMetadataM
  readFile : ReadRequestM → Except String String
  editFile : EditRequestM → Except String FileMetadataM
  appendToFile : AppendRequestM → Except String FileMetadataM
  overwriteFile : OverwriteRequestM → Except String FileMetadataM
  listFiles : ListRequestM → Except String (List FileMetadataM × Nat)
  getFileMetadata : MetadataRequestM → Except String FileMetadataM
  getFileVersions : VersionsRequestM → Except String (List FileMetadataM × Nat)

/-- `OpenFilesConfig` (the fields the claims depend on). -/
structure ClientConfigM where
  apiKey : String
  basePath : Option String := none
deriving DecidableEq

/-- An `OpenFilesClient` instance: its config and its scoped base path. -/
structure OpenFilesClientM where
  config : ClientConfigM
  scopedBasePath : Option String := none
deriving DecidableEq

/-- The API-key validation error message thrown by the constructor. -/
def invalidApiKeyMsg : String :=
  "Invalid API key format. API key must start with \"oa_\" and be at least 35 characters long"

/-- The `OpenFilesClient` constructor of src/core/client.ts: it throws
`invalidApiKeyMsg` when `!config.apiKey || !config.apiKey.startsWith('oa_')
|| config.apiKey.length < 35`, and otherwise produces the client. -/
def mkOpenFilesClient (config : ClientConfigM) (scopedBasePath : Option String) :
    Except String OpenFilesClientM :=
  if config.apiKey = "" ∨ ¬ strStartsWith config.apiKey "oa_" ∨ config.apiKey.length < 35 then
    Except.error invalidApiKeyMsg
  else
    Except.ok { config := config, scopedBasePath := scopedBasePath }

/-- `OpenFilesClient.withBasePath`: combine the current effective base
path with the new segment and return a new client instance. -/
def clientWithBasePath (cl : OpenFilesClientM) (basePath : String) : OpenFilesClientM :=
  let currentEffectiveBasePath := orElseStr cl.scopedBasePath (orElseStr cl.config.basePath "")
  let resolvedBasePath :=
    if currentEffectiveBasePath = "" then basePath
    else joinPaths currentEffectiveBasePath basePath
  { config := cl.config, scopedBasePath := some resolvedBasePath }

/-- `WriteParams` of src/core/client.ts (fields optional because the tool
executor may forward absent JSON fields). -/
structure WriteParamsM where
  path : Option String := none
  content : Option String := none
  contentType : Option String := none
  isBase64 : Option Bool := none
  basePath : Option String := none
deriving DecidableEq

/-- `ReadParams` of src/core/client.ts. -/
structure ReadParamsM where
  path : Option String := none
  version : Option Nat := none
  basePath : Option String := none
deriving DecidableEq

/-- `EditParams` of src/core/client.ts. -/
structure EditParamsM where
  path : Option String := none
  oldString : Option String := none
  newString : Option String := none
  basePath : Option String := none
deriving DecidableEq

/-- `AppendParams` of src/core/client.ts. -/
structure AppendParamsM where
  path : Option String := none
  content : Option String := none
  basePath : Option String := none
deriving DecidableEq

/-- `OverwriteParams` of src/core/client.ts. -/
structure OverwriteParamsM where
  path : Option String := none
  content : Option String := none
  isBase64 : Option Bool := none
  basePath : Option String := none
deriving DecidableEq

/-- `ListParams` of src/core/client.ts. -/
structure ListParamsM where
  directory : Option String := none
  recursive : Option Bool := none
  limit : Option Nat := none
  offset : Option Nat := none
  basePath : Option String := none
deriving DecidableEq

/-- `MetadataParams` of src/core/client.ts. -/
structure MetadataParamsM where
  path : Option String := none
  version : Option Nat := none
  basePath : Option String := none
deriving DecidableEq

/-- `VersionsParams` of src/core/client.ts. -/
structure VersionsParamsM where
  path : Option String := none
  limit : Option Nat := none
  offset : Option Nat := none
  basePath : Option String := none
deriving DecidableEq

/-- `OpenFilesClient.writeFile`: resolve the path with the four-argument
priority rule, then call the generated backend endpoint. -/
def clientWriteFile (be : BackendM) (cl : OpenFilesClientM) (params : WriteParamsM) :
    Except String FileMetadataM :=
  let resolvedPath :=
    resolvePath cl.config.basePath cl.scopedBasePath params.basePath params.path
  be.writeFile { path := resolvedPath, content := params.content,
                 contentType := params.contentType, isBase64 := params.isBase64 }

/-- `OpenFilesClient.readFile`. -/
def clientReadFile (be : BackendM) (cl : OpenFilesClientM) (params : ReadParamsM) :
    Except String String :=
  let resolvedPath :=
    resolvePath cl.config.basePath cl.scopedBasePath params.basePath params.path
  be.readFile { path := resolvedPath, version := params.version }

/-- `OpenFilesClient.editFile`. -/
def clientEditFile (be : BackendM) (cl : OpenFilesClientM) (params : EditParamsM) :
    Except String FileMetadataM :=
  let resolvedPath :=
    resolvePath cl.config.basePath cl.scopedBasePath params.basePath params.path
  be.editFile { path := resolvedPath, oldString := params.oldString,
                newString := params.newString }

/-- `OpenFilesClient.appendToFile`. -/
def clientAppendToFile (be : BackendM) (cl : OpenFilesClientM) (params : AppendParamsM) :
    Except String FileMetadataM :=
  let resolvedPath :=
    resolvePath cl.config.basePath cl.scopedBasePath params.basePath params.path
  be.appendToFile { path := resolvedPath, content := params.content }

/-- `OpenFilesClient.overwriteFile`. -/
def clientOverwriteFile (be : BackendM) (cl : OpenFilesClientM) (params : OverwriteParamsM) :
    Except String FileMetadataM :=
  let resolvedPath :=
    resolvePath cl.config.basePath cl.scopedBasePath params.basePath params.path
  be.overwriteFile { path := resolvedPath, content := params.content,
                     isBase64 := params.isBase64 }

/-- `OpenFilesClient.listFiles`: a falsy `directory` falls back to the
resolved base path, or `'/'` when that is empty; `limit`/`offset` get the
`|| 10` / `|| 0` defaults. -/
def clientListFiles (be : BackendM) (cl : OpenFilesClientM) (params : ListParamsM) :
    Except String (List FileMetadataM × Nat) :=
  let baseOnly :=
    let r := resolvePath cl.config.basePath cl.scopedBasePath params.basePath none
    if r = "" then "/" else r
  let resolvedDirectory :=
    match params.directory with
    | some d =>
      if d = "" then baseOnly
      else resolvePath cl.config.basePath cl.scopedBasePath params.basePath (some d)
    | none => baseOnly
  be.listFiles { directory := resolvedDirectory, limit := orElseNat params.limit 10,
                 offset := orElseNat params.offset 0, recursive := params.recursive }

/-- `OpenFilesClient.getFileMetadata`. -/
def clientGetFileMetadata (be : BackendM) (cl : OpenFilesClientM) (params : MetadataParamsM) :
    Except String FileMetadataM :=
  let resolvedPath :=
    resolvePath cl.config.basePath cl.scopedBasePath params.basePath params.path
  be.getFileMetadata { path := resolvedPath, version := params.version }

/-- `OpenFilesClient.getFileVersions`. -/
def clientGetFileVersions (be : BackendM) (cl : OpenFilesClientM) (params : VersionsParamsM) :
    Except String (List FileMetadataM × Nat) :=
  let resolvedPath :=
    resolvePath cl.config.basePath cl.scopedBasePath params.basePath params.path
  be.getFileVersions { path := resolvedPath, limit := orElseNat params.limit 10,
                       offset := orElseNat params.offset 0 }

/- ## Tools layer (src/tools/tools.ts, provider classes) -/

/-- The structured value of a tool call's JSON `arguments` object; absent
JSON fields are `none` (JS `undefined`). -/
structure ArgObj where
  path : Option String := none
  content : Option String := none
  contentType : Option String := none
  oldString : Option String := none
  newString : Option String := none
  directory : Option String := none
  recursive : Option Bool := none
  limit : Option Nat := none
  offset : Option Nat := none
  version : Option Nat := none
  isBase64 : Option Bool := none
  basePath : Option String := none
deriving DecidableEq

/-- The outcome of `JSON.parse` on a tool call's `arguments` string: a
structured object, or a thrown `SyntaxError` with the given message. -/
inductive ToolArgs where
  | ok (a : ArgObj)
  | bad (msg : String)
deriving DecidableEq

/-- JavaScript `a || b` on two optional strings (`undefined` and `''` are
falsy). -/
def jsOr (a b : Option String) : Option String :=
  match a with
  | none => b
  | some s => if s = "" then b else s

/-- `FileOperationResult`: the four result shapes of the eight client
operations. -/
inductive FileOpResult where
  | meta (m : FileMetadataM)
  | content (s : String)
  | fileList (files : List FileMetadataM) (total : Nat)
  | versionList (versions : List FileMetadataM) (total : Nat)
deriving DecidableEq

/-- The single-path step of `stripBasePath`: remove the `basePath + '/'`
prefix when the path starts with it. -/
def stripOne (basePath p : String) : String :=
  if strStartsWith p (basePath ++ "/") then p.drop (basePath.length + 1) else p

/-- `OpenAIProvider.stripBasePath` (the `AnthropicProvider` copy is
identical): with no active base path the result is untouched; a metadata
record, each entry of a `files` array and each entry of a `versions` array
get the base-path prefix removed; raw string content is untouched. -/
def stripBasePath (basePath : Option String) (r : FileOpResult) : FileOpResult :=
  match basePath with
  | none => r
  | some bp =>
    if bp = "" then r
    else
      match r with
      | .meta m => .meta { m with path := stripOne bp m.path }
      | .content s => .content s
      | .fileList files total =>
        .fileList (files.map (fun f => { f with path := stripOne bp f.path })) total
      | .versionList versions total =>
        .versionList (versions.map (fun v => { v with path := stripOne bp v.path })) total

/-- An `OpenAIProvider` instance: the (possibly scoped) client it calls
and the active base path used for stripping. -/
structure OpenAIProviderM where
  client : OpenFilesClientM
  basePath : Option String := none
deriving DecidableEq

/-- `OpenFilesTools.getEffectiveBasePath`: the client's own base path
(`scopedBasePath || config.basePath`), combined with the extra
constructor segment when one is given. -/
def getEffectiveBasePath (cl : OpenFilesClientM) (basePath : Option String) :
    Option String :=
  let clientBasePath := jsOr cl.scopedBasePath cl.config.basePath
  match basePath with
  | some bp =>
    if bp = "" then clientBasePath
    else
      match clientBasePath with
      | some cb => if cb = "" then some bp else some (cb ++ "/" ++ bp)
      | none => some bp
  | none => clientBasePath

/-- The `OpenFilesTools` constructor, restricted to the OpenAI provider it
builds: scope the client by the constructor base path and record the
effective base path for stripping. -/
def mkOpenAIProvider (cl : OpenFilesClientM) (basePath : Option String) :
    OpenAIProviderM :=
  let scopedClient :=
    match basePath with
    | some bp => if bp = "" then cl else clientWithBasePath cl bp
    | none => cl
  { client := scopedClient, basePath := getEffectiveBasePath cl basePath }

/-- `isOpenFilesTool`: membership of a tool name in the catalog of the
eight operations. -/
def isOpenFilesTool (name : String) : Bool :=
  ["write_file", "read_file", "edit_file", "list_files", "append_to_file",
   "overwrite_file", "get_file_metadata", "get_file_versions"].contains name

/-- `OpenAIProvider.executeTool`: dispatch one parsed tool call to the
matching client operation; `version === 0` means latest; every result is
passed through `stripBasePath` except the raw `read_file` content, which
is returned as-is; an unknown name throws. -/
def executeTool (be : BackendM) (prov : OpenAIProviderM) (fname : String)
    (args : ArgObj) : Except String FileOpResult :=
  if fname = "write_file" then
    (clientWriteFile be prov.client
      { path := args.path, content := args.content,
        contentType := args.contentType }).map
      (fun m => stripBasePath prov.basePath (.meta m))
  else if fname = "read_file" then
    (clientReadFile be prov.client
      { path := args.path,
        version := if args.version = some 0 then none else args.version }).map
      (fun s => FileOpResult.content s)
  else if fname = "edit_file" then
    (clientEditFile be prov.client
      { path := args.path, oldString := args.oldString,
        newString := args.newString }).map
      (fun m => stripBasePath prov.basePath (.meta m))
  else if fname = "list_files" then
    (clientListFiles be prov.client
      { directory := args.directory, limit := args.limit,
        recursive := args.recursive }).map
      (fun r => stripBasePath prov.basePath (.fileList r.1 r.2))
  else if fname = "append_to_file" then
    (clientAppendToFile be prov.client
      { path := args.path, content := args.content }).map
      (fun m => stripBasePath prov.basePath (.meta m))
  else if fname = "overwrite_file" then
    (clientOverwriteFile be prov.client
      { path := args.path, content := args.content,
        isBase64 := args.isBase64 }).map
      (fun m => stripBasePath prov.basePath (.meta m))
  else if fname = "get_file_metadata" then
    (clientGetFileMetadata be prov.client
      { path := args.path,
        version := if args.version = some 0 then none else args.version }).map
      (fun m => stripBasePath prov.basePath (.meta m))
  else if fname = "get_file_versions" then
    (clientGetFileVersions be prov.client
      { path := args.path, limit := args.limit, offset := args.offset }).map
      (fun r => stripBasePath prov.basePath (.versionList r.1 r.2))
  else
    Except.error ("Unknown tool: " ++ fname)

/-- A tool call of a model response (`id` plus `function.name` and
`function.arguments`). -/
structure ToolCallM where
  id : String
  fname : String
  args : ToolArgs
deriving DecidableEq

/-- An assistant message carrying tool calls. -/
structure MessageM where
  tool_calls : List ToolCallM := []
deriving DecidableEq

/-- One choice of a chat-completion response. -/
structure ChoiceM where
  message : MessageM
deriving DecidableEq

/-- A (non-streaming) chat-completion response. -/
structure ChatResponseM where
  choices : List ChoiceM
deriving DecidableEq

/-- The JSON content of a `role:"tool"` message built by
`processToolCalls`: `{success:true, data, operation}` or
`{success:false, error:{code, message}, operation}`. -/
inductive ToolMsgContent where
  | success (data : FileOpResult) (operation : String)
  | failure (code message operation : String)
deriving DecidableEq

/-- A `role:"tool"` conversation message. -/
structure ToolMessageM where
  tool_call_id : String
  content : ToolMsgContent
deriving DecidableEq

/-- A `ToolResult` record of `processToolCalls`. -/
structure ToolResultM where
  toolCallId : String
  status : String
  data : Option FileOpResult := none
  error : Option String := none
  fname : String
  args : Option ArgObj := none
deriving DecidableEq

/-- `ProcessedToolCalls`. -/
structure ProcessedM where
  handled : Bool
  results : List ToolResultM
  toolMessages : List ToolMessageM
deriving DecidableEq

/-- The body of the `try/catch` of `processToolCalls` for one matching
tool call.  The arguments string is parsed inside the `try`; on a parse
failure the `catch` block parses the same string again, so the second
`SyntaxError` escapes (`Except.error`).  With parsed arguments, a thrown
execution error is converted into an error result and an
`EXECUTION_ERROR` tool message. -/
def processOneCall (be : BackendM) (prov : OpenAIProviderM) (tc : ToolCallM) :
    Except String (ToolResultM × ToolMessageM) :=
  match tc.args with
  | .bad msg => Except.error msg
  | .ok args =>
    match executeTool be prov tc.fname args with
    | .ok result =>
      Except.ok
        ({ toolCallId := tc.id, status := "success", data := some result,
           fname := tc.fname, args := some args },
         { tool_call_id := tc.id, content := .success result tc.fname })
    | .error e =>
      Except.ok
        ({ toolCallId := tc.id, status := "error", error := some e,
           fname := tc.fname, args := some args },
         { tool_call_id := tc.id, content := .failure "EXECUTION_ERROR" e tc.fname })

/-- The sequential loop of `processToolCalls` over the tool calls of a
response: non-catalog names are skipped silently; catalog names set
`handled` and contribute one result and one tool message each; an escaped
exception aborts the whole call. -/
def processCallList (be : BackendM) (prov : OpenAIProviderM) :
    List ToolCallM → Except String (Bool × List ToolResultM × List ToolMessageM)
  | [] => Except.ok (false, [], [])
  | tc :: rest =>
    if isOpenFilesTool tc.fname then
      match processOneCall be prov tc with
      | .error e => Except.error e
      | .ok (r, m) =>
        match processCallList be prov rest with
        | .error e => Except.error e
        | .ok (_, rs, ms) => Except.ok (true, r :: rs, m :: ms)
    else
      processCallList be prov rest

/-- All tool calls of a response, in choice order then call order. -/
def allToolCalls (resp : ChatResponseM) : List ToolCallM :=
  resp.choices.foldr (fun ch acc => ch.message.tool_calls ++ acc) []

/-- `OpenAIProvider.processToolCalls`. -/
def processToolCalls (be : BackendM) (prov : OpenAIProviderM)
    (resp : ChatResponseM) : Except String ProcessedM :=
  (processCallList be prov (allToolCalls resp)).map
    (fun x => { handled := x.1, results := x.2.1, toolMessages := x.2.2 })

/-- The result shape of the legacy `OpenFilesTools.executeTool` for
`read_file`: `{ path: args.path, content, version: args.version }`. -/
structure LegacyReadData where
  path : Option String
  content : String
  version : Option Nat
deriving DecidableEq

/-- The `read_file` branch of the legacy (pre-provider)
`OpenFilesTools.executeTool`, which attached the requested path and
version to the raw content. -/
def legacyReadFileTool (be : BackendM) (cl : OpenFilesClientM) (args : ArgObj) :
    Except String LegacyReadData :=
  (clientReadFile be cl
    { path := args.path,
      version := if args.version = some 0 then none else args.version }).map
    (fun content => { path := args.path, content := content, version := args.version })

/- ## OpenAI orchestration (src/openai/client.ts) -/

/-- The `getPath` helper of `getOperationMessage`: the `path` field when
the result is an object that has one, `''` otherwise. -/
def getPathOfResult : FileOpResult → String
  | .meta m => m.path
  | _ => ""

/-- `getOperationMessage` of the enhanced OpenAI client. -/
def getOperationMessage (operation : String) (args : ArgObj)
    (result : FileOpResult) : String :=
  let fileName :=
    let fromArgs := orElseStr args.path ""
    let fromResult := if fromArgs = "" then getPathOfResult result else fromArgs
    if fromResult = "" then "file" else fromResult
  if operation = "write_file" ∨ operation = "overwrite_file" then
    let size := match result with
      | .meta m => m.size
      | _ => 0
    (if operation = "write_file" then "Created" else "Overwrote") ++
      " file \"" ++ fileName ++ "\" (" ++ toString size ++ " bytes)"
  else if operation = "read_file" then
    let content := match result with
      | .content s => s
      | _ => ""
    "Read content from \"" ++ fileName ++ "\" (" ++ toString content.length ++
      " characters)"
  else if operation = "list_files" then
    let files := match result with
      | .fileList fs _ => fs
      | _ => []
    "Listed " ++ toString files.length ++ " files in directory"
  else if operation = "get_file_versions" then
    let versions := match result with
      | .versionList vs _ => vs
      | _ => []
    "Retrieved " ++ toString versions.length ++ " versions for \"" ++ fileName ++ "\""
  else if operation = "edit_file" then
    "Updated file \"" ++ fileName ++ "\" with string replacement"
  else if operation = "append_to_file" then
    "Added content to \"" ++ fileName ++ "\""
  else if operation = "get_file_metadata" then
    "Retrieved metadata for \"" ++ fileName ++ "\""
  else
    "Completed " ++ operation ++ " operation"

/-- JavaScript truthiness of an optional operation result (`undefined`
and the empty content string are falsy). -/
def resultTruthy : Option FileOpResult → Bool
  | none => false
  | some (.content s) => ¬(s = "")
  | some _ => true

/-- The JSON content of a tool message built by the enhanced client's
`executeTools` (it re-encodes the framework-agnostic results and adds a
human-readable `message` on success). -/
inductive OaiToolMsgContent where
  | success (data : Option FileOpResult) (operation message : String)
  | failure (code message operation : String)
deriving DecidableEq

/-- A `role:"tool"` message of the enhanced client. -/
structure OaiToolMessageM where
  tool_call_id : String
  content : OaiToolMsgContent
deriving DecidableEq

/-- The per-result message construction of the enhanced client's
`executeTools` loop. -/
def resultToOaiMessage (r : ToolResultM) : OaiToolMessageM :=
  if r.status = "success" then
    let msg :=
      if resultTruthy r.data then
        match r.data with
        | some d => getOperationMessage r.fname (r.args.getD {}) d
        | none => "Completed " ++ r.fname ++ " operation"
      else "Completed " ++ r.fname ++ " operation"
    { tool_call_id := r.toolCallId, content := .success r.data r.fname msg }
  else
    { tool_call_id := r.toolCallId,
      content := .failure "EXECUTION_ERROR" (orElseStr r.error "Unknown error") r.fname }

/-- `executeTools` of the enhanced OpenAI client: process the response
through the tools layer and emit one tool message per executed call, in
order. -/
def executeTools (be : BackendM) (prov : OpenAIProviderM) (resp : ChatResponseM) :
    Except String (List OaiToolMessageM) :=
  (processToolCalls be prov resp).map (fun pr => pr.results.map resultToOaiMessage)

/-- A conversation message of a chat-completion request. -/
inductive ChatMsg where
  | user (text : String)
  | assistant (m : MessageM)
  | tool (t : OaiToolMessageM)
deriving DecidableEq

/-- A chat-completion request (the fields the orchestration touches). -/
structure ChatRequestM where
  messages : List ChatMsg
  tools : List JsonVal := []
  parallel_tool_calls : Option Bool := none

/-- The model, as an abstract collaborator: its reply to the first
(augmented) request and its reply to the continuation request. -/
structure ModelOracle where
  first : ChatRequestM → ChatResponseM
  second : ChatRequestM → ChatResponseM

/-- `response.choices[0].message` (an empty message when there is no
choice). -/
def choiceMessage (resp : ChatResponseM) : MessageM :=
  ((resp.choices.head?).map (fun c => c.message)).getD {}

/-- The request augmentation of `enhancedCreate`: inject the catalog's
tool schemas ahead of the caller's tools and force sequential
(non-parallel) tool calls. -/
def augmentParams (params : ChatRequestM) : ChatRequestM :=
  { params with parallel_tool_calls := some false,
                tools := openaiDefinitions ++ params.tools }

/-- `enhancedCreate` of src/openai/client.ts: send the augmented request
to the model; execute matching tools; when at least one tool message was
produced, issue exactly one continuation call with the assistant message
and the tool messages appended to the original request and return its
response, otherwise return the first response unchanged.  The second
component of the result is the list of model requests issued, in order. -/
def enhancedCreate (be : BackendM) (prov : OpenAIProviderM)
    (oracle : ModelOracle) (params : ChatRequestM) :
    Except String ChatResponseM × List ChatRequestM :=
  let enhancedParams : ChatRequestM := augmentParams params
  let response := oracle.first enhancedParams
  match executeTools be prov response with
  | .error e => (Except.error e, [enhancedParams])
  | .ok toolMessages =>
    if toolMessages.length > 0 then
      let contParams : ChatRequestM :=
        { params with
            messages := params.messages ++ [ChatMsg.assistant (choiceMessage response)]
              ++ toolMessages.map ChatMsg.tool }
      (Except.ok (oracle.second contParams), [enhancedParams, contParams])
    else
      (Except.ok response, [enhancedParams])

/- ## Specification-side definitions and concrete scenario data -/

/-- Truthiness of an optional base-path fragment: provided and non-empty. -/
def isNonEmptyBase (x : Option String) : Bool :=
  match x with
  | some s => ¬(s = "")
  | none => false

/-- Written from the spec's words, for comparison with `resolvePath`:
the effective base is the first non-empty of operation, scoped,
constructor (an empty string counts as not provided). -/
def effectiveBaseSpec (constructorBase scopedBase operationBase : Option String) :
    String :=
  if isNonEmptyBase operationBase then operationBase.getD ""
  else if isNonEmptyBase scopedBase then scopedBase.getD ""
  else if isNonEmptyBase constructorBase then constructorBase.getD ""
  else ""

/-- Written from the spec's words, for comparison with `resolvePath`: an
empty or absent relative path returns the normalized effective base,
anything else joins onto it. -/
def resolvePathSpec (constructorBase scopedBase operationBase relative : Option String) :
    String :=
  match relative with
  | none => normalizePath (effectiveBaseSpec constructorBase scopedBase operationBase)
  | some r =>
    if r = "" then normalizePath (effectiveBaseSpec constructorBase scopedBase operationBase)
    else joinPaths (effectiveBaseSpec constructorBase scopedBase operationBase) r

/-- A concrete backend that accepts every call and echoes the request
path back in the returned metadata (`version` 1, `size` 0); reads return
`"hello"`. -/
def echoBackend : BackendM where
  writeFile := fun req => Except.ok { path := req.path, version := 1, size := 0 }
  readFile := fun _ => Except.ok "hello"
  editFile := fun req => Except.ok { path := req.path, version := 2, size := 0 }
  appendToFile := fun req => Except.ok { path := req.path, version := 2, size := 0 }
  overwriteFile := fun req => Except.ok { path := req.path, version := 2, size := 0 }
  listFiles := fun _ => Except.ok ([], 0)
  getFileMetadata := fun req => Except.ok { path := req.path, version := 1, size := 0 }
  getFileVersions := fun _ => Except.ok ([], 0)

/-- A concrete backend whose `writeFile` throws `"File already exists"`
(the create-only conflict) and which otherwise behaves like
`echoBackend`. -/
def conflictBackend : BackendM :=
  { echoBackend with writeFile := fun _ => Except.error "File already exists" }

/-- A concrete unscoped client with a valid API key. -/
def demoBaseClient : OpenFilesClientM :=
  { config := { apiKey := "oa_test123456789012345678901234567890" } }

/-- The OpenAI provider of an `OpenFilesTools` instance built over
`demoBaseClient` with constructor base path `"proj/site"`. -/
def scopedProvider : OpenAIProviderM :=
  mkOpenAIProvider demoBaseClient (some "proj/site")

/-- The OpenAI provider of an `OpenFilesTools` instance built over
`demoBaseClient` with no base path. -/
def plainProvider : OpenAIProviderM :=
  mkOpenAIProvider demoBaseClient none

/-- A tool call whose `arguments` string is not valid JSON. -/
def badJsonCall : ToolCallM :=
  { id := "call-bad", fname := "write_file",
    args := ToolArgs.bad "Unexpected token n in JSON at position 0" }

/-- Another tool call whose `arguments` string is not valid JSON. -/
def badJsonCall2 : ToolCallM :=
  { id := "call-bad2", fname := "write_file",
    args := ToolArgs.bad "Unexpected token i in JSON at position 0" }

/-- A tool call that does not belong to the OpenFiles catalog. -/
def weatherCall : ToolCallM :=
  { id := "call-weather", fname := "get_weather", args := ToolArgs.ok {} }

/-- A well-formed catalog tool call (`read_file` of `"notes.txt"`). -/
def readNotesCall : ToolCallM :=
  { id := "call-read", fname := "read_file",
    args := ToolArgs.ok { path := some "notes.txt", version := some 0 } }

/-- A model oracle whose first response contains a single catalog tool
call with malformed JSON arguments. -/
def badOracle : ModelOracle where
  first := fun _ => { choices := [{ message := { tool_calls := [badJsonCall2] } }] }
  second := fun _ => { choices := [] }

/-- A model oracle whose first response contains one well-formed catalog
tool call and whose continuation response contains none. -/
def readOracle : ModelOracle where
  first := fun _ => { choices := [{ message := { tool_calls := [readNotesCall] } }] }
  second := fun _ => { choices := [{ message := {} }] }

/-- A model oracle whose first response contains no tool call at all. -/
def quietOracle : ModelOracle where
  first := fun _ => { choices := [{ message := {} }] }
  second := fun _ => { choices := [] }

/-- A well-formed `write_file` tool call (`"a.txt"`). -/
def writeConflictCall : ToolCallM where
  id := "call-w"
  fname := "write_file"
  args := ToolArgs.ok { path := some "a.txt", content := some "hi" }

/-- A single-choice response carrying the given tool calls. -/
def respOf (tcs : List ToolCallM) : ChatResponseM :=
  { choices := [{ message := { tool_calls := tcs } }] }

/-- The error `ToolResult` that `processToolCalls` produces for
`writeConflictCall` against `conflictBackend`. -/
def conflictResult : ToolResultM where
  toolCallId := "call-w"
  status := "error"
  error := some "File already exists"
  fname := "write_file"
  args := some { path := some "a.txt", content := some "hi" }

/-- The success `ToolResult` that `processToolCalls` produces for
`readNotesCall` against `echoBackend`. -/
def readNotesResult : ToolResultM where
  toolCallId := "call-read"
  status := "success"
  data := some (FileOpResult.content "hello")
  fname := "read_file"
  args := some { path := some "notes.txt", version := some 0 }

/- ## Normalization lemmas -/

/-- The adjacency relation violated by a duplicate slash. -/
def NoDoubleSlash (a b : Char) : Prop := ¬(a = '/' ∧ b = '/')

theorem collapseSlashes_head? (l : List Char) :
    (collapseSlashes l).head? = l.head? := by
  match l with
  | [] => rfl
  | [c] => rfl
  | c1 :: c2 :: rest =>
    rw [collapseSlashes]
    by_cases h : c1 = '/' ∧ c2 = '/'
    · simp only [if_pos h]
      rw [collapseSlashes_head? (c2 :: rest)]
      simp [h.1, h.2]
    · simp [if_neg h]

theorem chain'_collapseSlashes (l : List Char) :
    List.Chain' NoDoubleSlash (collapseSlashes l) := by
  match l with
  | [] => simp [collapseSlashes]
  | [c] => simp [collapseSlashes]
  | c1 :: c2 :: rest =>
    rw [collapseSlashes]
    by_cases h : c1 = '/' ∧ c2 = '/'
    · simpa [if_pos h] using chain'_collapseSlashes (c2 :: rest)
    · rw [if_neg h]
      rw [List.chain'_cons']
      refine ⟨?_, chain'_collapseSlashes (c2 :: rest)⟩
      intro y hy
      rw [collapseSlashes_head? (c2 :: rest)] at hy
      simp only [List.head?_cons, Option.mem_def, Option.some.injEq] at hy
      subst hy
      exact h

theorem collapseSlashes_of_chain' (l : List Char)
    (h : List.Chain' NoDoubleSlash l) : collapseSlashes l = l := by
  match l with
  | [] => rfl
  | [c] => rfl
  | c1 :: c2 :: rest =>
    rw [List.chain'_cons] at h
    rw [collapseSlashes, if_neg h.1, collapseSlashes_of_chain' (c2 :: rest) h.2]

theorem dropWhile_head?_not (p : Char → Bool) (l : List Char) (c : Char)
    (h : (l.dropWhile p).head? = some c) : p c = false := by
  induction l with
  | nil => simp [List.dropWhile] at h
  | cons a rest ih =>
    rw [List.dropWhile_cons] at h
    by_cases hp : p a = true
    · rw [if_pos hp] at h
      exact ih h
    · rw [if_neg hp] at h
      simp only [List.head?_cons, Option.some.injEq] at h
      subst h
      simpa using hp

theorem dropWhile_eq_self_of_head? (p : Char → Bool) (l : List Char)
    (h : ∀ c, l.head? = some c → p c = false) : l.dropWhile p = l := by
  cases l with
  | nil => rfl
  | cons a rest =>
    rw [List.dropWhile_cons]
    have ha : p a = false := h a rfl
    simp [ha]

theorem chain'_dropWhile (p : Char → Bool) (l : List Char)
    (h : List.Chain' NoDoubleSlash l) :
    List.Chain' NoDoubleSlash (l.dropWhile p) := by
  induction l with
  | nil => exact h
  | cons a rest ih =>
    rw [List.dropWhile_cons]
    by_cases hp : p a = true
    · rw [if_pos hp]
      exact ih h.tail
    · rw [if_neg hp]
      exact h

theorem chain'_reverse_noDouble (l : List Char)
    (h : List.Chain' NoDoubleSlash l) :
    List.Chain' NoDoubleSlash l.reverse := by
  rw [List.chain'_reverse]
  refine List.Chain'.imp ?_ h
  intro a b hab
  intro hc
  exact hab ⟨hc.2, hc.1⟩

theorem chain'_dropTrailingSlashes (l : List Char)
    (h : List.Chain' NoDoubleSlash l) :
    List.Chain' NoDoubleSlash (dropTrailingSlashes l) := by
  unfold dropTrailingSlashes
  exact chain'_reverse_noDouble _ (chain'_dropWhile _ _ (chain'_reverse_noDouble _ h))

theorem dropTrailingSlashes_getLast? (l : List Char) (c : Char)
    (h : (dropTrailingSlashes l).getLast? = some c) : isSlash c = false := by
  unfold dropTrailingSlashes at h
  rw [List.getLast?_reverse] at h
  exact dropWhile_head?_not _ _ _ h

theorem dropTrailingSlashes_eq_self (l : List Char)
    (h : ∀ c, l.getLast? = some c → isSlash c = false) :
    dropTrailingSlashes l = l := by
  unfold dropTrailingSlashes
  rw [dropWhile_eq_self_of_head? isSlash l.reverse, List.reverse_reverse]
  intro c hc
  rw [List.head?_reverse] at hc
  exact h c hc

theorem dropTrailingSlashes_head? (l : List Char)
    (h : ∀ c, l.head? = some c → isSlash c = false) :
    ∀ c, (dropTrailingSlashes l).head? = some c → isSlash c = false := by
  intro c hc
  have hsplit : l = dropTrailingSlashes l ++ (l.reverse.takeWhile isSlash).reverse := by
    unfold dropTrailingSlashes
    have := List.takeWhile_append_dropWhile isSlash l.reverse
    calc l = l.reverse.reverse := (List.reverse_reverse l).symm
    _ = (l.reverse.takeWhile isSlash ++ l.reverse.dropWhile isSlash).reverse := by rw [this]
    _ = (l.reverse.dropWhile isSlash).reverse ++ (l.reverse.takeWhile isSlash).reverse := by
          rw [List.reverse_append]
  apply h
  rw [hsplit, List.head?_append, hc]
  rfl

theorem normalizeList_head? (l : List Char) :
    ∀ c, (normalizeList l).head? = some c → isSlash c = false := by
  unfold normalizeList
  apply dropTrailingSlashes_head?
  intro c hc
  rw [collapseSlashes_head?] at hc
  exact dropWhile_head?_not _ _ _ hc

theorem normalizeList_chain' (l : List Char) :
    List.Chain' NoDoubleSlash (normalizeList l) :=
  chain'_dropTrailingSlashes _ (chain'_collapseSlashes _)

theorem normalizeList_getLast? (l : List Char) :
    ∀ c, (normalizeList l).getLast? = some c → isSlash c = false :=
  fun c hc => dropTrailingSlashes_getLast? _ c hc

theorem normalizeList_idem (l : List Char) :
    normalizeList (normalizeList l) = normalizeList l := by
  conv_lhs => rw [normalizeList]
  rw [dropWhile_eq_self_of_head? isSlash (normalizeList l) (normalizeList_head? l)]
  rw [collapseSlashes_of_chain' _ (normalizeList_chain' l)]
  exact dropTrailingSlashes_eq_self _ (normalizeList_getLast? l)

theorem normalizePath_idem (p : String) :
    normalizePath (normalizePath p) = normalizePath p := by
  unfold normalizePath
  exact congrArg String.mk (normalizeList_idem p.data)

/- ## Claim theorems -/

/-- C9: `normalizePath` is idempotent — for every string `p`,
`normalizePath (normalizePath p) = normalizePath p` — and it removes all
leading, trailing, and duplicate slashes, so
`normalizePath "//a//b/" = "a/b"` and `normalizePath "" = ""`. -/
theorem normalizePath_idempotent_and_strips_slashes :
    (∀ p : String, normalizePath (normalizePath p) = normalizePath p) ∧
    normalizePath "//a//b/" = "a/b" ∧ normalizePath "" = "" :=
  ⟨normalizePath_idem, by decide, by decide⟩

/-- C2: `resolvePath` uses as effective base the first non-empty of
operation, scoped, constructor base (empty string and `undefined` both
count as not provided); an empty or absent relative path returns the
normalized base, otherwise the join; in particular the four
priority examples of the spec hold. -/
theorem resolvePath_priority :
    (∀ c s o r, resolvePath c s o r = resolvePathSpec c s o r) ∧
    resolvePath (some "c") (some "s") (some "o") (some "f.txt") = "o/f.txt" ∧
    resolvePath (some "c") (some "s") none (some "f.txt") = "s/f.txt" ∧
    resolvePath (some "c") none none (some "f.txt") = "c/f.txt" ∧
    resolvePath none none none (some "f.txt") = "f.txt" := by
  refine ⟨?_, by decide, by decide, by decide, by decide⟩
  intro c s o r
  have hbase : orElseStr o (orElseStr s (orElseStr c "")) = effectiveBaseSpec c s o := by
    rcases o with _ | os <;> rcases s with _ | ss <;> rcases c with _ | cs <;>
      simp only [orElseStr, effectiveBaseSpec, isNonEmptyBase, Option.getD_some,
        Option.getD_none, decide_not] <;>
      split_ifs <;> simp_all
  unfold resolvePath resolvePathSpec
  rw [hbase]

/-- C3: no tool schema of either provider's catalog exposes a `basePath`
property — each of the 8 OpenAI schemas' `function.parameters.properties`
and each of the 8 Anthropic schemas' `input_schema.properties` lacks the
key `"basePath"`. -/
theorem catalog_never_exposes_basePath :
    openaiDefinitions.length = 8 ∧ anthropicDefinitions.length = 8 ∧
    openaiDefinitions.all
      (fun d => !((openaiSchemaPropKeys d).contains "basePath")) = true ∧
    anthropicDefinitions.all
      (fun d => !((anthropicSchemaPropKeys d).contains "basePath")) = true := by
  refine ⟨rfl, rfl, rfl, rfl⟩

/-- C10: the `OpenFilesClient` constructor throws the invalid-API-key
error if and only if the key is missing, does not start with `"oa_"`, or
is shorter than 35 characters; otherwise the client is constructed. -/
theorem apiKey_validation_iff :
    ∀ (config : ClientConfigM) (sp : Option String),
      (mkOpenFilesClient config sp = Except.error invalidApiKeyMsg ↔
        (config.apiKey = "" ∨ ¬ strStartsWith config.apiKey "oa_" ∨
          config.apiKey.length < 35)) ∧
      (¬(config.apiKey = "" ∨ ¬ strStartsWith config.apiKey "oa_" ∨
          config.apiKey.length < 35) →
        mkOpenFilesClient config sp =
          Except.ok { config := config, scopedBasePath := sp }) := by
  intro config sp
  refine ⟨⟨?_, ?_⟩, ?_⟩
  · intro h
    by_contra hc
    rw [mkOpenFilesClient, if_neg hc] at h
    exact Except.noConfusion h
  · intro h
    rw [mkOpenFilesClient, if_pos h]
  · intro h
    rw [mkOpenFilesClient, if_neg h]

/-- C10 witness: a well-formed key constructs the client, a malformed key
is rejected with the documented message. -/
theorem apiKey_validation_iff_witness :
    mkOpenFilesClient { apiKey := "oa_test123456789012345678901234567890" } none =
      Except.ok { config := { apiKey := "oa_test123456789012345678901234567890" },
                  scopedBasePath := none } ∧
    mkOpenFilesClient { apiKey := "invalid_key" } none =
      Except.error invalidApiKeyMsg :=
  ⟨(apiKey_validation_iff { apiKey := "oa_test123456789012345678901234567890" } none).2
      (by decide),
   (apiKey_validation_iff { apiKey := "invalid_key" } none).1.mpr (by decide)⟩

theorem processOneCall_ok (be : BackendM) (prov : OpenAIProviderM) (tc : ToolCallM)
    (a : ArgObj) (h : tc.args = ToolArgs.ok a) :
    ∃ r msg, processOneCall be prov tc = Except.ok (r, msg) ∧
      r.toolCallId = tc.id ∧ r.fname = tc.fname ∧ r.args = some a ∧
      msg.tool_call_id = tc.id := by
  cases hex : executeTool be prov tc.fname a with
  | ok result =>
    refine ⟨⟨tc.id, "success", some result, none, tc.fname, some a⟩,
            ⟨tc.id, .success result tc.fname⟩, ?_, rfl, rfl, rfl, rfl⟩
    simp only [processOneCall, h, hex]
  | error e =>
    refine ⟨⟨tc.id, "error", none, some e, tc.fname, some a⟩,
            ⟨tc.id, .failure "EXECUTION_ERROR" e tc.fname⟩, ?_, rfl, rfl, rfl, rfl⟩
    simp only [processOneCall, h, hex]

/-- C4 counterexample: a response with one catalog tool call (whose
arguments string happens to be malformed JSON) and one unrelated call
makes `processToolCalls` reject instead of producing one result with
`handled = true`, so the claim does not hold for every such response. -/
theorem mixed_calls_counterexample :
    processToolCalls echoBackend scopedProvider
        (respOf [badJsonCall2, weatherCall]) =
      Except.error "Unexpected token i in JSON at position 0" := by
  rfl

/-- C4 amended: for a response with exactly one catalog tool call (whose
arguments string parses as JSON) and one unrelated tool call, in either
order, `processToolCalls` executes only the matching call, produces
exactly one result and one tool message (for the matching call, whether
it succeeds or fails), returns `handled = true`, and raises no error for
the unrelated call. -/
theorem mixed_calls_execute_only_matching (be : BackendM) (prov : OpenAIProviderM)
    (resp : ChatResponseM) (tcM tcU : ToolCallM) (a : ArgObj)
    (hM : isOpenFilesTool tcM.fname = true)
    (hU : isOpenFilesTool tcU.fname = false)
    (hargs : tcM.args = ToolArgs.ok a)
    (horder : allToolCalls resp = [tcM, tcU] ∨ allToolCalls resp = [tcU, tcM]) :
    ∃ r msg, processToolCalls be prov resp =
        Except.ok { handled := true, results := [r], toolMessages := [msg] } ∧
      r.toolCallId = tcM.id ∧ r.fname = tcM.fname ∧ r.args = some a ∧
      msg.tool_call_id = tcM.id := by
  obtain ⟨r, msg, hone, h1, h2, h3, h4⟩ := processOneCall_ok be prov tcM a hargs
  have hlist : processCallList be prov (allToolCalls resp) =
      Except.ok (true, [r], [msg]) := by
    rcases horder with ho | ho <;> rw [ho] <;>
      simp only [processCallList, hM, hU, hone, if_true, if_false,
        Bool.false_eq_true, ite_false, ite_true]
  refine ⟨r, msg, ?_, h1, h2, h3, h4⟩
  unfold processToolCalls
  rw [hlist]
  rfl

/-- C4 witness: the amended claim evaluated at a concrete `read_file`
call paired with an unrelated `get_weather` call. -/
theorem mixed_calls_execute_only_matching_witness :
    ∃ r msg, processToolCalls echoBackend plainProvider
        (respOf [readNotesCall, weatherCall]) =
        Except.ok { handled := true, results := [r], toolMessages := [msg] } ∧
      r.toolCallId = readNotesCall.id ∧ r.fname = readNotesCall.fname ∧
      r.args = some { path := some "notes.txt", version := some 0 } ∧
      msg.tool_call_id = readNotesCall.id :=
  mixed_calls_execute_only_matching echoBackend plainProvider
    (respOf [readNotesCall, weatherCall]) readNotesCall weatherCall
    { path := some "notes.txt", version := some 0 } (by decide) (by decide) rfl
    (Or.inl (by decide))

/-- C1: under the scoped view whose effective base path is
`"proj/site"`, a successful `write_file` tool call with argument path
`"config.json"` resolves to backend path `"proj/site/config.json"`, and
the `ToolResult` data returned to the model carries path `"config.json"`
(the base path is stripped). -/
theorem write_file_scoped_strips_basePath (be : BackendM) (c ct cid : String)
    (m : FileMetadataM)
    (hbe : be.writeFile
        { path := "proj/site/config.json", content := some c,
          contentType := some ct, isBase64 := none } = Except.ok m)
    (hm : m.path = "proj/site/config.json") :
    resolvePath scopedProvider.client.config.basePath
        scopedProvider.client.scopedBasePath none (some "config.json") =
      "proj/site/config.json" ∧
    processToolCalls be scopedProvider
        (respOf [⟨cid, "write_file",
          ToolArgs.ok { path := some "config.json", content := some c,
                        contentType := some ct }⟩]) =
      Except.ok
        { handled := true,
          results := [⟨cid, "success",
            some (FileOpResult.meta { m with path := "config.json" }), none,
            "write_file",
            some { path := some "config.json", content := some c,
                   contentType := some ct }⟩],
          toolMessages := [⟨cid,
            .success (FileOpResult.meta { m with path := "config.json" })
              "write_file"⟩] } := by
  refine ⟨by decide, ?_⟩
  have hexec : executeTool be scopedProvider "write_file"
      { path := some "config.json", content := some c, contentType := some ct } =
      Except.ok (FileOpResult.meta { m with path := "config.json" }) := by
    show (be.writeFile
        { path := "proj/site/config.json", content := some c,
          contentType := some ct, isBase64 := none }).map
        (fun mm => stripBasePath scopedProvider.basePath (FileOpResult.meta mm)) =
      Except.ok (FileOpResult.meta { m with path := "config.json" })
    rw [hbe]
    show Except.ok (stripBasePath scopedProvider.basePath (FileOpResult.meta m)) = _
    rw [show stripBasePath scopedProvider.basePath (FileOpResult.meta m) =
      FileOpResult.meta { m with path := stripOne "proj/site" m.path } from rfl]
    rw [hm]
    rw [show stripOne "proj/site" "proj/site/config.json" = "config.json" from by decide]
  have hone : processOneCall be scopedProvider
      ⟨cid, "write_file",
        ToolArgs.ok { path := some "config.json", content := some c,
                      contentType := some ct }⟩ =
      Except.ok
        (⟨cid, "success",
          some (FileOpResult.meta { m with path := "config.json" }), none,
          "write_file",
          some { path := some "config.json", content := some c,
                 contentType := some ct }⟩,
         ⟨cid, .success (FileOpResult.meta { m with path := "config.json" })
           "write_file"⟩) := by
    simp only [processOneCall]
    rw [hexec]
  show (processCallList be scopedProvider
      [⟨cid, "write_file",
        ToolArgs.ok { path := some "config.json", content := some c,
                      contentType := some ct }⟩]).map _ = _
  rw [show processCallList be scopedProvider
      [⟨cid, "write_file",
        ToolArgs.ok { path := some "config.json", content := some c,
                      contentType := some ct }⟩] =
      (match processOneCall be scopedProvider
        ⟨cid, "write_file",
          ToolArgs.ok { path := some "config.json", content := some c,
                        contentType := some ct }⟩ with
      | .error e => Except.error e
      | .ok (r, msg) => Except.ok (true, [r], [msg])) from rfl]
  rw [hone]
  rfl

/-- C1 witness: the scenario evaluated at the echoing backend with
content `"x"` and content type `"text/plain"`. -/
theorem write_file_scoped_strips_basePath_witness :
    resolvePath scopedProvider.client.config.basePath
        scopedProvider.client.scopedBasePath none (some "config.json") =
      "proj/site/config.json" ∧
    processToolCalls echoBackend scopedProvider
        (respOf [⟨"call-1", "write_file",
          ToolArgs.ok { path := some "config.json", content := some "x",
                        contentType := some "text/plain" }⟩]) =
      Except.ok
        { handled := true,
          results := [⟨"call-1", "success",
            some (FileOpResult.meta
              { path := "config.json", version := 1, size := 0 }), none,
            "write_file",
            some { path := some "config.json", content := some "x",
                   contentType := some "text/plain" }⟩],
          toolMessages := [⟨"call-1",
            .success (FileOpResult.meta
                { path := "config.json", version := 1, size := 0 })
              "write_file"⟩] } :=
  write_file_scoped_strips_basePath echoBackend "x" "text/plain" "call-1"
    { path := "proj/site/config.json", version := 1, size := 0 } rfl rfl

theorem processCallList_spec (be : BackendM) (prov : OpenAIProviderM)
    (l : List ToolCallM)
    (hp : ∀ tc ∈ l, isOpenFilesTool tc.fname = true → ∃ a, tc.args = ToolArgs.ok a) :
    ∃ h rs ms, processCallList be prov l = Except.ok (h, rs, ms) ∧
      rs.length = (l.filter (fun tc => isOpenFilesTool tc.fname)).length ∧
      ms.length = rs.length := by
  induction l with
  | nil => exact ⟨false, [], [], rfl, by simp, rfl⟩
  | cons tc rest ih =>
    obtain ⟨h, rs, ms, hrec, hlen, hlen2⟩ :=
      ih (fun x hx hm => hp x (List.mem_cons_of_mem _ hx) hm)
    by_cases hmatch : isOpenFilesTool tc.fname = true
    · obtain ⟨a, ha⟩ := hp tc (List.mem_cons_self _ _) hmatch
      obtain ⟨r, msg, hone, _, _, _, _⟩ := processOneCall_ok be prov tc a ha
      refine ⟨true, r :: rs, msg :: ms, ?_, ?_, ?_⟩
      · simp only [processCallList, hmatch, if_true, hone, hrec]
      · simp [List.filter_cons, hmatch, hlen]
      · simp [hlen2]
    · have hmatch2 : isOpenFilesTool tc.fname = false :=
        Bool.eq_false_iff.mpr hmatch
      refine ⟨h, rs, ms, ?_, ?_, ?_⟩
      · simpa only [processCallList, hmatch2, Bool.false_eq_true, if_false] using hrec
      · simp [List.filter_cons, hmatch2, hlen]
      · exact hlen2

theorem executeTools_spec (be : BackendM) (prov : OpenAIProviderM)
    (resp : ChatResponseM)
    (hp : ∀ tc ∈ allToolCalls resp, isOpenFilesTool tc.fname = true →
      ∃ a, tc.args = ToolArgs.ok a) :
    ∃ msgs, executeTools be prov resp = Except.ok msgs ∧
      msgs.length =
        ((allToolCalls resp).filter (fun tc => isOpenFilesTool tc.fname)).length := by
  obtain ⟨h, rs, ms, hrec, hlen, _⟩ :=
    processCallList_spec be prov (allToolCalls resp) hp
  refine ⟨rs.map resultToOaiMessage, ?_, by simpa using hlen⟩
  unfold executeTools processToolCalls
  rw [hrec]
  rfl

/-- C5 counterexample: the first model response contains a matching tool
call, yet no continuation model call is made — the call's malformed JSON
arguments make the turn reject after a single model call — so "one or
more matching tool calls imply exactly one continuation call" fails on
the code. -/
theorem orchestration_counterexample :
    (allToolCalls (badOracle.first
        (augmentParams { messages := [ChatMsg.user "hi"] }))).filter
      (fun tc => isOpenFilesTool tc.fname) ≠ [] ∧
    enhancedCreate echoBackend plainProvider badOracle
        { messages := [ChatMsg.user "hi"] } =
      (Except.error "Unexpected token i in JSON at position 0",
       [augmentParams { messages := [ChatMsg.user "hi"] }]) := by
  exact ⟨by decide, rfl⟩

/-- C5 amended: provided every matching tool call of the first response
has parseable JSON arguments, an orchestrated create with zero matching
tool calls returns the first response unchanged after a single model
call; with one or more matching calls it issues exactly one continuation
call whose messages are the original messages plus the assistant message
plus one tool message per executed call, and returns the continuation's
response.  Unconditionally, at most two model calls occur per
invocation, even if the continuation response contains tool calls. -/
theorem orchestration_at_most_two_calls (be : BackendM) (prov : OpenAIProviderM)
    (oracle : ModelOracle) (params : ChatRequestM) :
    ((∀ tc ∈ allToolCalls (oracle.first (augmentParams params)),
        isOpenFilesTool tc.fname = true → ∃ a, tc.args = ToolArgs.ok a) →
      ((allToolCalls (oracle.first (augmentParams params))).filter
          (fun tc => isOpenFilesTool tc.fname) = [] →
        enhancedCreate be prov oracle params =
          (Except.ok (oracle.first (augmentParams params)), [augmentParams params])) ∧
      ((allToolCalls (oracle.first (augmentParams params))).filter
          (fun tc => isOpenFilesTool tc.fname) ≠ [] →
        ∃ msgs, executeTools be prov (oracle.first (augmentParams params)) =
            Except.ok msgs ∧
          msgs.length =
            ((allToolCalls (oracle.first (augmentParams params))).filter
              (fun tc => isOpenFilesTool tc.fname)).length ∧
          enhancedCreate be prov oracle params =
            (Except.ok (oracle.second
              { params with messages := params.messages ++
                  [ChatMsg.assistant (choiceMessage (oracle.first (augmentParams params)))]
                  ++ msgs.map ChatMsg.tool }),
             [augmentParams params,
              { params with messages := params.messages ++
                  [ChatMsg.assistant (choiceMessage (oracle.first (augmentParams params)))]
                  ++ msgs.map ChatMsg.tool }]))) ∧
    (enhancedCreate be prov oracle params).2.length ≤ 2 := by
  constructor
  · intro hp
    obtain ⟨msgs, hex, hlen⟩ :=
      executeTools_spec be prov (oracle.first (augmentParams params)) hp
    constructor
    · intro hempty
      have hnil : msgs = [] := by
        rw [hempty] at hlen
        simpa using List.length_eq_zero.mp (by simpa using hlen)
      simp only [enhancedCreate]
      rw [hex, hnil]
      rfl
    · intro hne
      have hpos : 0 < msgs.length := by
        rw [hlen]
        exact List.length_pos.mpr hne
      refine ⟨msgs, hex, hlen, ?_⟩
      simp only [enhancedCreate, hex]
      rw [if_pos hpos]
  · simp only [enhancedCreate]
    cases hex2 : executeTools be prov (oracle.first (augmentParams params)) with
    | error e => simp
    | ok msgs =>
      by_cases hpos : 0 < msgs.length
      · simp [hpos]
      · simp [hpos]

/-- C5 witness: the amended claim evaluated at a quiet oracle (no tool
calls: the first response is returned after one model call), and at an
oracle that requests one `read_file` (one continuation call with the
assistant message and the tool messages appended; at most two model
calls). -/
theorem orchestration_at_most_two_calls_witness :
    enhancedCreate echoBackend plainProvider quietOracle
        { messages := [ChatMsg.user "hi"] } =
      (Except.ok (quietOracle.first
          (augmentParams { messages := [ChatMsg.user "hi"] })),
       [augmentParams { messages := [ChatMsg.user "hi"] }]) ∧
    (∃ msgs,
      executeTools echoBackend plainProvider
          (readOracle.first (augmentParams { messages := [ChatMsg.user "hi"] })) =
        Except.ok msgs ∧
      msgs.length =
        ((allToolCalls (readOracle.first
            (augmentParams { messages := [ChatMsg.user "hi"] }))).filter
          (fun tc => isOpenFilesTool tc.fname)).length ∧
      enhancedCreate echoBackend plainProvider readOracle
          { messages := [ChatMsg.user "hi"] } =
        (Except.ok (readOracle.second
          { messages := [ChatMsg.user "hi"] ++
              [ChatMsg.assistant (choiceMessage (readOracle.first
                (augmentParams { messages := [ChatMsg.user "hi"] })))]
              ++ msgs.map ChatMsg.tool }),
         [augmentParams { messages := [ChatMsg.user "hi"] },
          { messages := [ChatMsg.user "hi"] ++
              [ChatMsg.assistant (choiceMessage (readOracle.first
                (augmentParams { messages := [ChatMsg.user "hi"] })))]
              ++ msgs.map ChatMsg.tool }])) ∧
    (enhancedCreate echoBackend plainProvider readOracle
        { messages := [ChatMsg.user "hi"] }).2.length ≤ 2 := by
  refine ⟨?_, ?_, ?_⟩
  · exact ((orchestration_at_most_two_calls echoBackend plainProvider quietOracle
      { messages := [ChatMsg.user "hi"] }).1
      (by intro tc htc hm; simp [allToolCalls, quietOracle] at htc)).1 (by decide)
  · exact ((orchestration_at_most_two_calls echoBackend plainProvider readOracle
      { messages := [ChatMsg.user "hi"] }).1
      (by
        intro tc htc hm
        have htc2 : tc = readNotesCall := by
          have he : allToolCalls (readOracle.first
              (augmentParams { messages := [ChatMsg.user "hi"] })) =
              [readNotesCall] := rfl
          rw [he] at htc
          simpa using htc
        rw [htc2]
        exact ⟨{ path := some "notes.txt", version := some 0 }, rfl⟩)).2 (by decide)
  · exact (orchestration_at_most_two_calls echoBackend plainProvider readOracle
      { messages := [ChatMsg.user "hi"] }).2

/-- C6 counterexample: the path `"../secret"` is rejected by
`isValidPath`, yet `writeFile` raises no validation error — it performs
the backend call with exactly that path and returns the backend's
success. -/
theorem invalid_path_reaches_backend :
    isValidPath "../secret" = false ∧
    clientWriteFile echoBackend demoBaseClient
        { path := some "../secret", content := some "x" } =
      Except.ok { path := "../secret", version := 1, size := 0 } := by
  exact ⟨by decide, rfl⟩

/-- C6 amended: `isValidPath` implements the documented rejection rules
(spec test vector), but no file operation invokes it: all eight
operations unconditionally forward the resolved path (or resolved
directory) to the backend, so an invalid path is neither rejected nor
sanitized before the backend call. -/
theorem isValidPath_rules_but_unenforced :
    (isValidPath "../../etc/passwd" = false ∧ isValidPath "" = false ∧
     isValidPath "   " = false ∧ isValidPath "a<b>.txt" = false ∧
     isValidPath "a/b-c_d.txt" = true) ∧
    (∀ (be : BackendM) (cl : OpenFilesClientM) (params : WriteParamsM),
      clientWriteFile be cl params =
        be.writeFile
          { path := resolvePath cl.config.basePath cl.scopedBasePath
              params.basePath params.path,
            content := params.content, contentType := params.contentType,
            isBase64 := params.isBase64 }) ∧
    (∀ (be : BackendM) (cl : OpenFilesClientM) (params : ReadParamsM),
      clientReadFile be cl params =
        be.readFile
          { path := resolvePath cl.config.basePath cl.scopedBasePath
              params.basePath params.path,
            version := params.version }) ∧
    (∀ (be : BackendM) (cl : OpenFilesClientM) (params : EditParamsM),
      clientEditFile be cl params =
        be.editFile
          { path := resolvePath cl.config.basePath cl.scopedBasePath
              params.basePath params.path,
            oldString := params.oldString, newString := params.newString }) ∧
    (∀ (be : BackendM) (cl : OpenFilesClientM) (params : AppendParamsM),
      clientAppendToFile be cl params =
        be.appendToFile
          { path := resolvePath cl.config.basePath cl.scopedBasePath
              params.basePath params.path,
            content := params.content }) ∧
    (∀ (be : BackendM) (cl : OpenFilesClientM) (params : OverwriteParamsM),
      clientOverwriteFile be cl params =
        be.overwriteFile
          { path := resolvePath cl.config.basePath cl.scopedBasePath
              params.basePath params.path,
            content := params.content, isBase64 := params.isBase64 }) ∧
    (∀ (be : BackendM) (cl : OpenFilesClientM) (params : ListParamsM),
      clientListFiles be cl params =
        be.listFiles
          { directory :=
              match params.directory with
              | some d =>
                if d = "" then
                  (let r := resolvePath cl.config.basePath cl.scopedBasePath
                    params.basePath none
                   if r = "" then "/" else r)
                else resolvePath cl.config.basePath cl.scopedBasePath
                  params.basePath (some d)
              | none =>
                let r := resolvePath cl.config.basePath cl.scopedBasePath
                  params.basePath none
                if r = "" then "/" else r,
            limit := orElseNat params.limit 10,
            offset := orElseNat params.offset 0,
            recursive := params.recursive }) ∧
    (∀ (be : BackendM) (cl : OpenFilesClientM) (params : MetadataParamsM),
      clientGetFileMetadata be cl params =
        be.getFileMetadata
          { path := resolvePath cl.config.basePath cl.scopedBasePath
              params.basePath params.path,
            version := params.version }) ∧
    (∀ (be : BackendM) (cl : OpenFilesClientM) (params : VersionsParamsM),
      clientGetFileVersions be cl params =
        be.getFileVersions
          { path := resolvePath cl.config.basePath cl.scopedBasePath
              params.basePath params.path,
            limit := orElseNat params.limit 10,
            offset := orElseNat params.offset 0 }) ∧
    clientWriteFile echoBackend demoBaseClient
        { path := some "../secret", content := some "x" } =
      Except.ok { path := "../secret", version := 1, size := 0 } := by
  refine ⟨by decide, fun be cl params => rfl, fun be cl params => rfl,
    fun be cl params => rfl, fun be cl params => rfl, fun be cl params => rfl,
    fun be cl params => rfl, fun be cl params => rfl, fun be cl params => rfl, rfl⟩

/-- C7: a tool call whose arguments string is not valid JSON makes
`processToolCalls` itself reject — the `catch` block re-parses the same
string and the second `SyntaxError` escapes, producing no tool message —
while a thrown backend error (with well-formed arguments) is correctly
converted into an `EXECUTION_ERROR` result.  The claim that no exception
escapes `processToolCalls` therefore fails on the malformed-JSON input. -/
theorem malformed_json_escapes_processToolCalls :
    processToolCalls echoBackend scopedProvider (respOf [badJsonCall]) =
      Except.error "Unexpected token n in JSON at position 0" ∧
    processToolCalls conflictBackend scopedProvider (respOf [writeConflictCall]) =
      Except.ok
        { handled := true, results := [conflictResult],
          toolMessages := [⟨"call-w",
            .failure "EXECUTION_ERROR" "File already exists" "write_file"⟩] } := by
  exact ⟨rfl, rfl⟩

/-- C8 counterexample: the provider executor returns the raw `read_file`
content with nothing attached — the data is the bare string, not a
record carrying the requested path and version. -/
theorem read_file_returns_bare_content :
    executeTool echoBackend scopedProvider "read_file"
        { path := some "config.json", version := some 0 } =
      Except.ok (FileOpResult.content "hello") ∧
    (∀ m : FileMetadataM, FileOpResult.content "hello" ≠ FileOpResult.meta m) := by
  refine ⟨rfl, fun m h => FileOpResult.noConfusion h⟩

/-- C8 amended: `read_file` returns the raw content unstripped (and
`stripBasePath` leaves string content untouched in any case), but only
the legacy `OpenFilesTools.executeTool` attached the requested path and
version to the result; the current provider executor returns the bare
content, the requested path and version surviving only in the
`ToolResult`'s `args`. -/
theorem read_file_raw_content_paths :
    (∀ (bp : Option String) (s : String),
      stripBasePath bp (FileOpResult.content s) = FileOpResult.content s) ∧
    (∀ (be : BackendM) (prov : OpenAIProviderM) (args : ArgObj),
      executeTool be prov "read_file" args =
        (clientReadFile be prov.client
          { path := args.path,
            version := if args.version = some 0 then none else args.version }).map
          (fun s => FileOpResult.content s)) ∧
    legacyReadFileTool echoBackend demoBaseClient
        { path := some "a.txt", version := some 2 } =
      Except.ok { path := some "a.txt", content := "hello", version := some 2 } ∧
    processToolCalls echoBackend plainProvider (respOf [readNotesCall]) =
      Except.ok
        { handled := true, results := [readNotesResult],
          toolMessages := [⟨"call-read",
            .success (FileOpResult.content "hello") "read_file"⟩] } := by
  refine ⟨?_, fun be prov args => rfl, rfl, rfl⟩
  intro bp s
  match bp with
  | none => rfl
  | some b =>
    by_cases hb : b = ""
    · simp [stripBasePath, hb]
    · simp [stripBasePath, hb]

end OpenFiles
